import Mathlib

/-!
Verification development for the `lumby-vibes` repository: three near-identical
top-down game prototypes (`lumbridge.py`, `medieval_game.py`, `medieval_village.py`).

The simulation core is shallowly embedded below.  All quantities the modelled
claims touch are integer-valued in the source (starting positions, speeds,
displacements, hit points, rewards are Python ints; the player/NPC/enemy update
arithmetic adds and scales ints), so world coordinates are embedded as `Int`.
Randomness (`random.choice`, `random.randint`) is embedded as explicit oracle
arguments.  `pygame.Rect.colliderect` is embedded by its strict-overlap formula.

Namespaces: `Lum` for `lumbridge.py`, `MG` for `medieval_game.py`,
`MV` for `medieval_village.py`.
-/

namespace LumbyVibes

/-- `pygame.Rect` restricted to the integer coordinates the games use. -/
structure Rect where
  x : Int
  y : Int
  w : Int
  h : Int
deriving DecidableEq

/-- `pygame.Rect.colliderect`: true iff the rectangles strictly overlap
(touching edges do not collide). -/
def Rect.colliderect (a b : Rect) : Bool :=
  decide (a.x < b.x + b.w) && decide (a.x + a.w > b.x) &&
  decide (a.y < b.y + b.h) && decide (a.y + a.h > b.y)

/-- A building footprint: `x`, `y`, `width`, `height` as in the `Building`
classes of all three files (the type tag only fixes width/height at
construction, see `Building.ofLumType`). -/
structure Building where
  x : Int
  y : Int
  width : Int
  height : Int
deriving DecidableEq

/-- The collision rectangle used in every collision test of the sources:
`pygame.Rect(building.x, building.y + 30, building.width, building.height - 30)`
(the 30-pixel roof margin does not collide). -/
def Building.collisionRect (b : Building) : Rect :=
  ⟨b.x, b.y + 30, b.width, b.height - 30⟩

/-- Dimensions assigned by `lumbridge.py`'s `Building.__init__` per type tag. -/
def Building.ofLumType (x y : Int) (t : String) : Building :=
  if t = "castle" then ⟨x, y, 160, 200⟩
  else if t = "church" then ⟨x, y, 80, 100⟩
  else if t = "farm" then ⟨x, y, 100, 80⟩
  else ⟨x, y, 70, 80⟩

/-- The building-overlap test every mover runs: candidate occupancy rectangle
against every building's collision rectangle. -/
def collidesAny (r : Rect) (buildings : List Building) : Bool :=
  buildings.any (fun b => Rect.colliderect r b.collisionRect)

/-- One record for the `Character` class hierarchy (base `Character` attributes
plus the `Player`/`NPC`/`Enemy` subclass attributes, which Python stores in the
same dynamic namespace; the dynamically-added `respawn_timer` is a field too).
Field defaults mirror the constructors (`width = height = TILE_SIZE = 32`,
`hp = max_hp = 10`, `level = 1`, `alive = True`, ...). -/
structure Character where
  x : Int := 0
  y : Int := 0
  start_x : Int := 0
  start_y : Int := 0
  width : Int := 32
  height : Int := 32
  speed : Int := 3
  direction : Int := 0
  walking : Bool := false
  walk_timer : Int := 0
  wander_timer : Int := 0
  wander_cooldown : Int := 120
  level : Int := 1
  hp : Int := 10
  max_hp : Int := 10
  alive : Bool := true
  attack : Int := 1
  defense : Int := 1
  combat_xp : Int := 0
  gold : Int := 0
  name : String := ""
  enemy_type : String := ""
  wander_area : Int := 100
  aggro_range : Int := 150
  chasing : Bool := false
  respawn_timer : Int := 0
deriving DecidableEq

/-- `lumbridge.py` `Player.move(dx, dy, buildings, river)` (lines 304-329).
The river argument is unused by the source body.  Note the source zeroes the
local `dx`/`dy` on a bounds violation but never recomputes `new_x`/`new_y`,
and returns early (before the walking-flag update) on building overlap. -/
def Lum.playerMove (p : Character) (dx dy : Int) (buildings : List Building) : Character :=
  let new_x := p.x + dx * p.speed
  let new_y := p.y + dy * p.speed
  let dx1 := if new_x < 0 ∨ new_x > 3000 - p.width then 0 else dx
  let dy1 := if new_y < 0 ∨ new_y > 2500 - p.height then 0 else dy
  let test_rect : Rect := ⟨new_x, new_y, p.width, p.height⟩
  if collidesAny test_rect buildings then p
  else
    let p1 := { p with x := new_x, y := new_y }
    if dx1 ≠ 0 ∨ dy1 ≠ 0 then { p1 with walking := true, walk_timer := p1.walk_timer + 1 }
    else { p1 with walking := false, walk_timer := 0 }

/-- `medieval_game.py` `Player.move(dx, dy, game_map)` (lines 50-59):
each axis is applied independently iff its candidate is inside
`[0, SCREEN_WIDTH - width]` resp. `[0, SCREEN_HEIGHT - height - 150]`
(`SCREEN_WIDTH = 1024`, `SCREEN_HEIGHT = 768`). -/
def MG.playerMove (p : Character) (dx dy : Int) : Character :=
  let new_x := p.x + dx * p.speed
  let new_y := p.y + dy * p.speed
  let p1 := if 0 ≤ new_x ∧ new_x ≤ 1024 - p.width then { p with x := new_x } else p
  if 0 ≤ new_y ∧ new_y ≤ 768 - p1.height - 150 then { p1 with y := new_y } else p1

/-- `medieval_village.py` `Player.move(dx, dy, buildings, npcs)` (lines 191-226).
Same shape as the Lumbridge move (world 2000x2000) plus the facing update. -/
def MV.playerMove (p : Character) (dx dy : Int) (buildings : List Building) : Character :=
  let new_x := p.x + dx * p.speed
  let new_y := p.y + dy * p.speed
  let dx1 := if new_x < 0 ∨ new_x > 2000 - p.width then 0 else dx
  let dy1 := if new_y < 0 ∨ new_y > 2000 - p.height then 0 else dy
  let test_rect : Rect := ⟨new_x, new_y, p.width, p.height⟩
  if collidesAny test_rect buildings then p
  else
    let p1 := { p with x := new_x, y := new_y }
    if dx1 ≠ 0 ∨ dy1 ≠ 0 then
      let p2 := { p1 with walking := true, walk_timer := p1.walk_timer + 1 }
      if dy1 > 0 then { p2 with direction := 0 }
      else if dy1 < 0 then { p2 with direction := 2 }
      else if dx1 > 0 then { p2 with direction := 1 }
      else if dx1 < 0 then { p2 with direction := 3 }
      else p2
    else { p1 with walking := false, walk_timer := 0 }

/-- Result of one `Game.attack_enemy` call: the updated player and target
plus the status message state the call writes. -/
structure AttackState where
  player : Character
  enemy : Character
  message : String
  message_timer : Int
deriving DecidableEq

/-- `lumbridge.py` `Game.attack_enemy(enemy)` (lines 583-600).
`r` is the `random.randint(0, 2)` damage roll.  On a kill the reward is
`level * 10` XP (flat `5` for chickens) and `level * 5` gold, and the
dynamically-added `respawn_timer` attribute is set to 300. -/
def Lum.attackEnemy (p e : Character) (r : Int) : AttackState :=
  let damage := p.attack + r
  let e1 := { e with hp := e.hp - damage }
  if e1.hp ≤ 0 then
    let e2 := { e1 with alive := false, respawn_timer := 300 }
    let xp := if e2.enemy_type ≠ "chicken" then e2.level * 10 else 5
    let gold := e2.level * 5
    { player := { p with combat_xp := p.combat_xp + xp, gold := p.gold + gold },
      enemy := e2,
      message := e2.name ++ " defeated! +" ++ toString xp ++ " XP, +" ++ toString gold ++ " coins",
      message_timer := 180 }
  else
    { player := p, enemy := e1,
      message := "You hit the " ++ e1.enemy_type ++ " for " ++ toString damage ++ " damage!",
      message_timer := 120 }

/-- `medieval_game.py` `Game.attack_enemy(enemy)` (lines 160-185).
Damage is exactly `player.attack` (no roll); a kill grants `level * 10` XP and
`level * 5` gold and then runs the single (non-compounding) level-up check
against the threshold `player.level * 50` (+1 attack, +1 defense, +2 max hp,
full heal). -/
def MG.attackEnemy (p e : Character) : AttackState :=
  let damage := p.attack
  let e1 := { e with hp := e.hp - damage }
  if e1.hp ≤ 0 then
    let e2 := { e1 with alive := false }
    let xp_gained := e2.level * 10
    let gold_gained := e2.level * 5
    let p1 := { p with combat_xp := p.combat_xp + xp_gained, gold := p.gold + gold_gained }
    if p1.combat_xp ≥ p1.level * 50 then
      let p2 := { p1 with level := p1.level + 1, attack := p1.attack + 1,
                          defense := p1.defense + 1, max_hp := p1.max_hp + 2,
                          hp := p1.max_hp + 2 }
      { player := p2, enemy := e2,
        message := "LEVEL UP! You are now level " ++ toString p2.level ++ "!",
        message_timer := 240 }
    else
      { player := p1, enemy := e2,
        message := "Enemy defeated! +" ++ toString xp_gained ++ " XP, +" ++ toString gold_gained ++ " gold",
        message_timer := 180 }
  else
    { player := p, enemy := e1,
      message := "You hit the enemy for " ++ toString damage ++ " damage!",
      message_timer := 120 }

/-- `medieval_village.py` `Game.attack_enemy(enemy)` (lines 498-524).
`r` is the `random.randint(0, 2)` roll; a kill grants `level * 15` XP and
`level * 10` gold, then the single level-up check against `player.level * 100`
(+1 attack, +1 defense, +3 max hp, full heal). -/
def MV.attackEnemy (p e : Character) (r : Int) : AttackState :=
  let damage := p.attack + r
  let e1 := { e with hp := e.hp - damage }
  if e1.hp ≤ 0 then
    let e2 := { e1 with alive := false }
    let xp_gained := e2.level * 15
    let gold_gained := e2.level * 10
    let p1 := { p with combat_xp := p.combat_xp + xp_gained, gold := p.gold + gold_gained }
    if p1.combat_xp ≥ p1.level * 100 then
      let p2 := { p1 with level := p1.level + 1, attack := p1.attack + 1,
                          defense := p1.defense + 1, max_hp := p1.max_hp + 3,
                          hp := p1.max_hp + 3 }
      { player := p2, enemy := e2,
        message := "LEVEL UP! You are now level " ++ toString p2.level ++ "!",
        message_timer := 240 }
    else
      { player := p1, enemy := e2,
        message := e2.name ++ " defeated! +" ++ toString xp_gained ++ " XP, +" ++ toString gold_gained ++ " gold",
        message_timer := 180 }
  else
    { player := p, enemy := e1,
      message := "You hit " ++ e1.name ++ " for " ++ toString damage ++ " damage!",
      message_timer := 120 }

/-- The click test in `Game.handle_click` (identical in all three files):
the enemy is considered only if it is alive and the world-coordinate click
point lies inside `[x, x + width] x [y, y + height]`. -/
def clickHits (e : Character) (wx wy : Int) : Bool :=
  e.alive && decide (e.x ≤ wx) && decide (wx ≤ e.x + e.width) &&
  decide (e.y ≤ wy) && decide (wy ≤ e.y + e.height)

/-- The `for enemy in self.enemies` loop of `lumbridge.py` `handle_click`
(lines 574-581): the first alive enemy containing the click is attacked
(early return); all other list entries are untouched.  The `Option` result
carries the message write iff an attack happened. -/
def Lum.handleClickList (p : Character) (wx wy r : Int) :
    List Character → Character × List Character × Option (String × Int)
  | [] => (p, [], none)
  | e :: rest =>
    if clickHits e wx wy then
      let st := Lum.attackEnemy p e r
      (st.player, st.enemy :: rest, some (st.message, st.message_timer))
    else
      let t := Lum.handleClickList p wx wy r rest
      (t.1, e :: t.2.1, t.2.2)

/-- Same loop in `medieval_village.py` `handle_click` (lines 489-496), calling
the village `attack_enemy`. -/
def MV.handleClickList (p : Character) (wx wy r : Int) :
    List Character → Character × List Character × Option (String × Int)
  | [] => (p, [], none)
  | e :: rest =>
    if clickHits e wx wy then
      let st := MV.attackEnemy p e r
      (st.player, st.enemy :: rest, some (st.message, st.message_timer))
    else
      let t := MV.handleClickList p wx wy r rest
      (t.1, e :: t.2.1, t.2.2)

/-- Whole-game state touched by `handle_click`. -/
structure GameState where
  player : Character
  enemies : List Character
  message : String
  message_timer : Int
deriving DecidableEq

/-- `lumbridge.py` `Game.handle_click(world_x, world_y)` on the game state:
message/message-timer change only when some alive enemy was hit. -/
def Lum.handleClick (g : GameState) (wx wy r : Int) : GameState :=
  let t := Lum.handleClickList g.player wx wy r g.enemies
  { player := t.1, enemies := t.2.1,
    message := (t.2.2.map Prod.fst).getD g.message,
    message_timer := (t.2.2.map Prod.snd).getD g.message_timer }

/-- `medieval_village.py` `Game.handle_click(world_x, world_y)`. -/
def MV.handleClick (g : GameState) (wx wy r : Int) : GameState :=
  let t := MV.handleClickList g.player wx wy r g.enemies
  { player := t.1, enemies := t.2.1,
    message := (t.2.2.map Prod.fst).getD g.message,
    message_timer := (t.2.2.map Prod.snd).getD g.message_timer }

/-- The walk-timer decay block shared verbatim by `lumbridge.py`
`Enemy.update` (lines 428-432) and `medieval_village.py` `NPC.update`
(lines 297-301): while walking, the timer increments and the walking flag
auto-clears (timer reset) once the timer exceeds 20. -/
def walkDecay (c : Character) : Character :=
  if c.walking then
    let c1 := { c with walk_timer := c.walk_timer + 1 }
    if c1.walk_timer > 20 then { c1 with walking := false, walk_timer := 0 } else c1
  else c

/-- `lumbridge.py` `NPC.update(buildings)` (lines 358-382), non-Hans branch
(the Hans branch is a trigonometric circular patrol, not a wander, and no
claim is about it).  `dx`, `dy` are the `random.choice([-1, 0, 1])` draws and
`cd` is the fresh `random.randint(120, 300)` cooldown; a proposal at step 10
per axis is accepted only if both `abs(new - start) < 30` checks pass, and
timer/cooldown are reset regardless.  The buildings argument is unread in this
branch. -/
def Lum.npcUpdate (n : Character) (dx dy cd : Int) : Character :=
  let n1 := { n with wander_timer := n.wander_timer + 1 }
  if n1.wander_timer ≥ n1.wander_cooldown then
    let new_x := n1.x + dx * 10
    let new_y := n1.y + dy * 10
    let n2 :=
      if |new_x - n1.start_x| < 30 ∧ |new_y - n1.start_y| < 30 then
        { n1 with x := new_x, y := new_y }
      else n1
    { n2 with wander_timer := 0, wander_cooldown := cd }
  else n1

/-- `lumbridge.py` `Enemy.update(buildings)` (lines 411-432): wander at step
`speed * 10` every 60 ticks, accepted only inside the `wander_area` box around
the start position, followed by the walk-timer decay.  `dx`, `dy` are the
`random.choice([-1, 0, 1])` draws.  This is the wander phase of the update;
`Lum.enemyUpdate` appends the walk-timer decay. -/
def Lum.enemyWander (e : Character) (dx dy : Int) : Character :=
  let e1 := { e with wander_timer := e.wander_timer + 1 }
  if e1.wander_timer ≥ 60 then
    let new_x := e1.x + dx * e1.speed * 10
    let new_y := e1.y + dy * e1.speed * 10
    let e3 :=
      if |new_x - e1.start_x| < e1.wander_area ∧ |new_y - e1.start_y| < e1.wander_area then
        { e1 with x := new_x, y := new_y,
                  walking := if dx ≠ 0 ∨ dy ≠ 0 then true else e1.walking }
      else e1
    { e3 with wander_timer := 0 }
  else e1

/-- `lumbridge.py` `Enemy.update(buildings)`, full body: the wander phase
followed by the walk-timer decay block. -/
def Lum.enemyUpdate (e : Character) (dx dy : Int) : Character :=
  walkDecay (Lum.enemyWander e dx dy)

/-- `medieval_village.py` `NPC.update(buildings)` (lines 256-301): wander at
step `speed * 5`, accepted only inside the 100-box around start AND only if
the candidate rectangle overlaps no building collision rectangle; facing and
walking set on an accepted nonzero step.  This is the wander phase;
`MV.npcUpdate` appends the walk-timer decay. -/
def MV.npcWander (n : Character) (buildings : List Building) (dx dy cd : Int) : Character :=
  let n1 := { n with wander_timer := n.wander_timer + 1 }
  if n1.wander_timer ≥ n1.wander_cooldown then
    let new_x := n1.x + dx * n1.speed * 5
    let new_y := n1.y + dy * n1.speed * 5
    let n3 :=
      if |new_x - n1.start_x| < 100 ∧ |new_y - n1.start_y| < 100 then
        if collidesAny ⟨new_x, new_y, n1.width, n1.height⟩ buildings then n1
        else
          let n4 := { n1 with x := new_x, y := new_y }
          if dx ≠ 0 ∨ dy ≠ 0 then
            let n5 := { n4 with walking := true }
            if dy > 0 then { n5 with direction := 0 }
            else if dy < 0 then { n5 with direction := 2 }
            else if dx > 0 then { n5 with direction := 1 }
            else if dx < 0 then { n5 with direction := 3 }
            else n5
          else n4
      else n1
    { n3 with wander_timer := 0, wander_cooldown := cd }
  else n1

/-- `medieval_village.py` `NPC.update(buildings)`, full body: the wander phase
followed by the walk-timer decay block. -/
def MV.npcUpdate (n : Character) (buildings : List Building) (dx dy cd : Int) : Character :=
  walkDecay (MV.npcWander n buildings dx dy cd)

/-- The x-axis phase of `medieval_village.py` `Enemy.update` (lines 344-360):
if the horizontal separation exceeds the dead zone of 5, step `speed` toward
the player unless the stepped rectangle overlaps a building; an accepted step
also sets facing and walking. -/
def MV.chaseX (e : Character) (dx : Int) (buildings : List Building) : Character :=
  if |dx| > 5 then
    let move_x := if dx > 0 then e.speed else -e.speed
    let new_x := e.x + move_x
    if collidesAny ⟨new_x, e.y, e.width, e.height⟩ buildings then e
    else { e with x := new_x, direction := if dx > 0 then 1 else 3, walking := true }
  else e

/-- The y-axis phase of `medieval_village.py` `Enemy.update` (lines 362-377);
its collision rectangle uses the x coordinate already updated by the x phase. -/
def MV.chaseY (e : Character) (dy : Int) (buildings : List Building) : Character :=
  if |dy| > 5 then
    let move_y := if dy > 0 then e.speed else -e.speed
    let new_y := e.y + move_y
    if collidesAny ⟨e.x, new_y, e.width, e.height⟩ buildings then e
    else { e with y := new_y, direction := if dy > 0 then 0 else 2, walking := true }
  else e

/-- `medieval_village.py` `Enemy.update(player, buildings)` (lines 335-382).
The source compares `math.sqrt(dx**2 + dy**2) < self.aggro_range` on integer
coordinates; this is embedded squared (`dx*dx + dy*dy < aggro_range^2`), which
is exact: both sides are nonnegative, square root is monotone, `150.0**2 =
22500` is exactly representable, and the nearest-even float `sqrt` of an
integer below (resp. at or above) 22500 stays below (resp. at or above) 150. -/
def MV.enemyUpdate (e : Character) (px py : Int) (buildings : List Building) : Character :=
  let dx := px - e.x
  let dy := py - e.y
  if dx * dx + dy * dy < e.aggro_range * e.aggro_range then
    let e1 := { e with chasing := true }
    let e2 := MV.chaseX e1 dx buildings
    let e3 := MV.chaseY e2 dy buildings
    { e3 with walk_timer := e3.walk_timer + 1 }
  else
    { e with chasing := false, walking := false }

/-- The `for enemy in self.enemies: if enemy.alive: enemy.update(...)` loop of
`lumbridge.py` `Game.update` (lines 623-626); `rand` is the per-slot random
oracle (the `i`-th live enemy update consumes `rand i`). -/
def Lum.updateEnemies (rand : Nat → Int × Int) (i : Nat) :
    List Character → List Character
  | [] => []
  | e :: rest =>
      (if e.alive then Lum.enemyUpdate e (rand i).1 (rand i).2 else e) ::
        Lum.updateEnemies rand (i + 1) rest

/-- Same loop in `medieval_village.py` `Game.update` (lines 549-551), where the
per-enemy update chases the player. -/
def MV.updateEnemies (px py : Int) (buildings : List Building)
    (es : List Character) : List Character :=
  es.map (fun e => if e.alive then MV.enemyUpdate e px py buildings else e)

/-- Iterated Lumbridge NPC wander: one entry of `ticks` per call of
`NPC.update`, carrying that tick's random draws. -/
def Lum.npcIterate (n : Character) : List (Int × Int × Int) → Character
  | [] => n
  | (dx, dy, cd) :: rest => Lum.npcIterate (Lum.npcUpdate n dx dy cd) rest

/-- Iterated village NPC wander. -/
def MV.npcIterate (n : Character) (buildings : List Building) :
    List (Int × Int × Int) → Character
  | [] => n
  | (dx, dy, cd) :: rest =>
      MV.npcIterate (MV.npcUpdate n buildings dx dy cd) buildings rest

/-- `sum(1 for e in enemies if e.alive)` (the alive-enemy count shown in the UI). -/
def countAlive (es : List Character) : Nat :=
  es.countP (fun e => e.alive)

/-! ### Helper lemmas on the movement resolvers -/

/-- If the candidate rectangle overlaps some building collision rectangle, the
Lumbridge move returns early: the whole character record is unchanged. -/
theorem Lum.playerMove_of_collision (p : Character) (dx dy : Int) (bs : List Building)
    (h : collidesAny ⟨p.x + dx * p.speed, p.y + dy * p.speed, p.width, p.height⟩ bs = true) :
    Lum.playerMove p dx dy bs = p := by
  simp [Lum.playerMove, h]

/-- Village variant of `Lum.playerMove_of_collision`. -/
theorem MV.playerMove_of_collision_mv (p : Character) (dx dy : Int) (bs : List Building)
    (h : collidesAny ⟨p.x + dx * p.speed, p.y + dy * p.speed, p.width, p.height⟩ bs = true) :
    MV.playerMove p dx dy bs = p := by
  simp [MV.playerMove, h]

/-- On a collision-free Lumbridge move whose bounds-filtered displacement is
nonzero, the position takes the candidate, the walking flag is set and the
walk timer is incremented. -/
theorem Lum.playerMove_accept (p : Character) (dx dy : Int) (bs : List Building)
    (h : collidesAny ⟨p.x + dx * p.speed, p.y + dy * p.speed, p.width, p.height⟩ bs = false)
    (hnz : (if p.x + dx * p.speed < 0 ∨ p.x + dx * p.speed > 3000 - p.width then 0 else dx) ≠ 0 ∨
           (if p.y + dy * p.speed < 0 ∨ p.y + dy * p.speed > 2500 - p.height then 0 else dy) ≠ 0) :
    Lum.playerMove p dx dy bs =
      { p with x := p.x + dx * p.speed, y := p.y + dy * p.speed,
               walking := true, walk_timer := p.walk_timer + 1 } := by
  unfold Lum.playerMove
  simp only [h, Bool.false_eq_true, if_false]
  exact if_pos hnz

/-- On a collision-free Lumbridge move whose bounds-filtered displacement is
zero, the position still takes the candidate but the walking flag is cleared
and the walk timer reset. -/
theorem Lum.playerMove_zero (p : Character) (dx dy : Int) (bs : List Building)
    (h : collidesAny ⟨p.x + dx * p.speed, p.y + dy * p.speed, p.width, p.height⟩ bs = false)
    (hz : ¬ ((if p.x + dx * p.speed < 0 ∨ p.x + dx * p.speed > 3000 - p.width then 0 else dx) ≠ 0 ∨
             (if p.y + dy * p.speed < 0 ∨ p.y + dy * p.speed > 2500 - p.height then 0 else dy) ≠ 0)) :
    Lum.playerMove p dx dy bs =
      { p with x := p.x + dx * p.speed, y := p.y + dy * p.speed,
               walking := false, walk_timer := 0 } := by
  unfold Lum.playerMove
  simp only [h, Bool.false_eq_true, if_false]
  exact if_neg hz

/-- On a collision-free village move whose bounds-filtered displacement is
nonzero, the position takes the candidate, the walking flag is set and the
walk timer is incremented (whatever facing branch is taken). -/
theorem MV.playerMove_accept_mv (p : Character) (dx dy : Int) (bs : List Building)
    (h : collidesAny ⟨p.x + dx * p.speed, p.y + dy * p.speed, p.width, p.height⟩ bs = false)
    (hnz : (if p.x + dx * p.speed < 0 ∨ p.x + dx * p.speed > 2000 - p.width then 0 else dx) ≠ 0 ∨
           (if p.y + dy * p.speed < 0 ∨ p.y + dy * p.speed > 2000 - p.height then 0 else dy) ≠ 0) :
    (MV.playerMove p dx dy bs).walking = true ∧
    (MV.playerMove p dx dy bs).walk_timer = p.walk_timer + 1 ∧
    (MV.playerMove p dx dy bs).x = p.x + dx * p.speed ∧
    (MV.playerMove p dx dy bs).y = p.y + dy * p.speed := by
  unfold MV.playerMove
  simp only [h, Bool.false_eq_true, if_false]
  rw [if_pos hnz]
  repeat' split
  all_goals exact ⟨rfl, rfl, rfl, rfl⟩

/-- On a collision-free village move whose bounds-filtered displacement is
zero, the position still takes the candidate but the walking flag is cleared
and the walk timer reset. -/
theorem MV.playerMove_zero_mv (p : Character) (dx dy : Int) (bs : List Building)
    (h : collidesAny ⟨p.x + dx * p.speed, p.y + dy * p.speed, p.width, p.height⟩ bs = false)
    (hz : ¬ ((if p.x + dx * p.speed < 0 ∨ p.x + dx * p.speed > 2000 - p.width then 0 else dx) ≠ 0 ∨
             (if p.y + dy * p.speed < 0 ∨ p.y + dy * p.speed > 2000 - p.height then 0 else dy) ≠ 0)) :
    MV.playerMove p dx dy bs =
      { p with x := p.x + dx * p.speed, y := p.y + dy * p.speed,
               walking := false, walk_timer := 0 } := by
  unfold MV.playerMove
  simp only [h, Bool.false_eq_true, if_false]
  exact if_neg hz

/-! ### C1 -/

/-- The player state of the C1 failing input: at the west world edge. -/
def Lum.c1Player : Character := { x := 0, y := 100, speed := 4 }

/-- C1 (code bug): the spec says an out-of-bounds x-candidate is discarded
(x unchanged) while a legal y-candidate is applied.  `medieval_game.py` does
exactly that (last two conjuncts), but `lumbridge.py` zeroes only the local
`dx` and never recomputes `new_x`, so at the failing input (player at (0,100),
request (-1,0), speed 4, no buildings near) the position still becomes
(-4,100): x moves out of bounds instead of staying put. -/
theorem c1_per_axis_bounds : (Lum.c1Player.x + (-1) * Lum.c1Player.speed < 0) ∧
    (Lum.playerMove Lum.c1Player (-1) 0 []).x = -4 ∧
    (Lum.playerMove Lum.c1Player (-1) 0 []).y = 100 ∧
    (MG.playerMove { x := 0, y := 100, speed := 4 } (-1) 1).x = 0 ∧
    (MG.playerMove { x := 0, y := 100, speed := 4 } (-1) 1).y = 104 := by decide

/-! ### C2 -/

/-- C2 scenario player: at (100,100), currently walking with a running timer. -/
def Lum.c2Player : Character := { x := 100, y := 100, speed := 4, walking := true, walk_timer := 7 }

/-- C2 scenario building: generic house at (100,70), so its collision
rectangle is (100,100)-(170,150), covering the spec scenario rectangle. -/
def Lum.c2Building : Building := Building.ofLumType 100 70 "house"

/-- C2 counterexample: in the end-to-end scenario (player at (100,100),
building collision rectangle covering (100,100)-(150,150), request (+1,+1) at
speed 4) the position does stay (100,100), but the walking flag is NOT
cleared: the building-overlap `return` happens before the walking-flag update,
so a previously-set flag and timer survive the rejected tick. -/
theorem c2_counterexample :
    (Lum.playerMove Lum.c2Player 1 1 [Lum.c2Building]).x = 100 ∧
    (Lum.playerMove Lum.c2Player 1 1 [Lum.c2Building]).y = 100 ∧
    (Lum.playerMove Lum.c2Player 1 1 [Lum.c2Building]).walking = true ∧
    (Lum.playerMove Lum.c2Player 1 1 [Lum.c2Building]).walk_timer = 7 := by decide

/-- C2 (amended): in both the Lumbridge and the village variant, on a
building-rejected tick the move is a full no-op (the walking flag and timer
keep their previous values rather than being cleared); on an accepted tick
with nonzero bounds-filtered displacement the flag is set and the timer
incremented; on an accepted tick with zero bounds-filtered displacement the
flag is cleared and the timer reset.  In the end-to-end scenario the position
stays (100,100) with the walking flag merely unchanged. -/
theorem c2_walking_discipline :
    (∀ (p : Character) (dx dy : Int) (bs : List Building),
        collidesAny ⟨p.x + dx * p.speed, p.y + dy * p.speed, p.width, p.height⟩ bs = true →
        Lum.playerMove p dx dy bs = p) ∧
    (∀ (p : Character) (dx dy : Int) (bs : List Building),
        collidesAny ⟨p.x + dx * p.speed, p.y + dy * p.speed, p.width, p.height⟩ bs = false →
        ((if p.x + dx * p.speed < 0 ∨ p.x + dx * p.speed > 3000 - p.width then 0 else dx) ≠ 0 ∨
         (if p.y + dy * p.speed < 0 ∨ p.y + dy * p.speed > 2500 - p.height then 0 else dy) ≠ 0) →
        (Lum.playerMove p dx dy bs).walking = true ∧
        (Lum.playerMove p dx dy bs).walk_timer = p.walk_timer + 1) ∧
    (∀ (p : Character) (dx dy : Int) (bs : List Building),
        collidesAny ⟨p.x + dx * p.speed, p.y + dy * p.speed, p.width, p.height⟩ bs = false →
        ¬ ((if p.x + dx * p.speed < 0 ∨ p.x + dx * p.speed > 3000 - p.width then 0 else dx) ≠ 0 ∨
           (if p.y + dy * p.speed < 0 ∨ p.y + dy * p.speed > 2500 - p.height then 0 else dy) ≠ 0) →
        (Lum.playerMove p dx dy bs).walking = false ∧
        (Lum.playerMove p dx dy bs).walk_timer = 0) ∧
    (∀ (p : Character) (dx dy : Int) (bs : List Building),
        collidesAny ⟨p.x + dx * p.speed, p.y + dy * p.speed, p.width, p.height⟩ bs = true →
        MV.playerMove p dx dy bs = p) ∧
    (∀ (p : Character) (dx dy : Int) (bs : List Building),
        collidesAny ⟨p.x + dx * p.speed, p.y + dy * p.speed, p.width, p.height⟩ bs = false →
        ((if p.x + dx * p.speed < 0 ∨ p.x + dx * p.speed > 2000 - p.width then 0 else dx) ≠ 0 ∨
         (if p.y + dy * p.speed < 0 ∨ p.y + dy * p.speed > 2000 - p.height then 0 else dy) ≠ 0) →
        (MV.playerMove p dx dy bs).walking = true ∧
        (MV.playerMove p dx dy bs).walk_timer = p.walk_timer + 1) ∧
    (∀ (p : Character) (dx dy : Int) (bs : List Building),
        collidesAny ⟨p.x + dx * p.speed, p.y + dy * p.speed, p.width, p.height⟩ bs = false →
        ¬ ((if p.x + dx * p.speed < 0 ∨ p.x + dx * p.speed > 2000 - p.width then 0 else dx) ≠ 0 ∨
           (if p.y + dy * p.speed < 0 ∨ p.y + dy * p.speed > 2000 - p.height then 0 else dy) ≠ 0) →
        (MV.playerMove p dx dy bs).walking = false ∧
        (MV.playerMove p dx dy bs).walk_timer = 0) := by
  refine ⟨fun p dx dy bs h => Lum.playerMove_of_collision p dx dy bs h, ?_, ?_,
    fun p dx dy bs h => MV.playerMove_of_collision_mv p dx dy bs h, ?_, ?_⟩
  · intro p dx dy bs h hnz
    rw [Lum.playerMove_accept p dx dy bs h hnz]
    exact ⟨rfl, rfl⟩
  · intro p dx dy bs h hz
    rw [Lum.playerMove_zero p dx dy bs h hz]
    exact ⟨rfl, rfl⟩
  · intro p dx dy bs h hnz
    have := MV.playerMove_accept_mv p dx dy bs h hnz
    exact ⟨this.1, this.2.1⟩
  · intro p dx dy bs h hz
    rw [MV.playerMove_zero_mv p dx dy bs h hz]
    exact ⟨rfl, rfl⟩

/-- C2 witness: a plain eastward step from (100,100) with no buildings is
accepted, sets the walking flag and bumps the timer. -/
theorem c2_walking_discipline_witness :
    (Lum.playerMove { x := 100, y := 100, speed := 4 } 1 0 []).walking = true ∧
    (Lum.playerMove { x := 100, y := 100, speed := 4 } 1 0 []).walk_timer = 0 + 1 :=
  c2_walking_discipline.2.1 { x := 100, y := 100, speed := 4 } 1 0 []
    (by decide) (by decide)

/-! ### C3 -/

/-- C3 (confirmed): building rejection is joint and total.  In both the
Lumbridge and the village variant, whenever the candidate occupancy rectangle
(position plus the full requested displacement times speed) overlaps any
building's collision rectangle (footprint minus the 30-pixel roof margin),
`Player.move` returns with the whole character — in particular both position
axes — unchanged, regardless of whether either axis alone would be clear. -/
theorem c3_building_rejection_total :
    (∀ (p : Character) (dx dy : Int) (bs : List Building),
        collidesAny ⟨p.x + dx * p.speed, p.y + dy * p.speed, p.width, p.height⟩ bs = true →
        Lum.playerMove p dx dy bs = p) ∧
    (∀ (p : Character) (dx dy : Int) (bs : List Building),
        collidesAny ⟨p.x + dx * p.speed, p.y + dy * p.speed, p.width, p.height⟩ bs = true →
        MV.playerMove p dx dy bs = p) :=
  ⟨fun p dx dy bs h => Lum.playerMove_of_collision p dx dy bs h,
   fun p dx dy bs h => MV.playerMove_of_collision_mv p dx dy bs h⟩

/-- C3 witness: a diagonal step from (200,200) into a house whose collision
rectangle only clips the corner of the candidate is fully blocked. -/
theorem c3_building_rejection_total_witness :
    Lum.playerMove { x := 200, y := 200, speed := 4 } 1 1 [Building.ofLumType 230 200 "house"] =
      { x := 200, y := 200, speed := 4 } :=
  c3_building_rejection_total.1 { x := 200, y := 200, speed := 4 } 1 1
    [Building.ofLumType 230 200 "house"] (by decide)

/-! ### Helper lemmas on click handling and the enemy update loop -/

/-- A click only registers on an alive enemy. -/
theorem clickHits_alive {e : Character} {wx wy : Int} (h : clickHits e wx wy = true) :
    e.alive = true := by
  simp only [clickHits, Bool.and_eq_true] at h
  exact h.1.1.1.1

/-- `handle_click` preserves the length of the enemies list (Lumbridge). -/
theorem Lum.handleClickList_length (p : Character) (wx wy r : Int) (es : List Character) :
    (Lum.handleClickList p wx wy r es).2.1.length = es.length := by
  induction es with
  | nil => rfl
  | cons e rest ih =>
    unfold Lum.handleClickList
    split
    · simp
    · simp [ih]

/-- `handle_click` preserves the length of the enemies list (village). -/
theorem MV.handleClickList_length_mv (p : Character) (wx wy r : Int) (es : List Character) :
    (MV.handleClickList p wx wy r es).2.1.length = es.length := by
  induction es with
  | nil => rfl
  | cons e rest ih =>
    unfold MV.handleClickList
    split
    · simp
    · simp [ih]

/-- A dead list entry passes through the Lumbridge `handle_click` loop
unchanged (only the first alive hit enemy is attacked). -/
theorem Lum.handleClickList_dead_get (p : Character) (wx wy r : Int) (es : List Character)
    (j : Nat) (e0 : Character) (hj : es[j]? = some e0) (hd : e0.alive = false) :
    (Lum.handleClickList p wx wy r es).2.1[j]? = some e0 := by
  induction es generalizing j with
  | nil => simp at hj
  | cons e rest ih =>
    unfold Lum.handleClickList
    split
    case isTrue hhit =>
      cases j with
      | zero =>
        simp only [List.getElem?_cons_zero, Option.some.injEq] at hj
        subst hj
        exact absurd (clickHits_alive hhit) (by simp [hd])
      | succ n =>
        simp only [List.getElem?_cons_succ] at hj
        simpa using hj
    case isFalse hmiss =>
      cases j with
      | zero =>
        simp only [List.getElem?_cons_zero, Option.some.injEq] at hj
        simpa using hj
      | succ n =>
        simp only [List.getElem?_cons_succ] at hj
        simpa using ih n hj

/-- Village analog of `Lum.handleClickList_dead_get`. -/
theorem MV.handleClickList_dead_get_mv (p : Character) (wx wy r : Int) (es : List Character)
    (j : Nat) (e0 : Character) (hj : es[j]? = some e0) (hd : e0.alive = false) :
    (MV.handleClickList p wx wy r es).2.1[j]? = some e0 := by
  induction es generalizing j with
  | nil => simp at hj
  | cons e rest ih =>
    unfold MV.handleClickList
    split
    case isTrue hhit =>
      cases j with
      | zero =>
        simp only [List.getElem?_cons_zero, Option.some.injEq] at hj
        subst hj
        exact absurd (clickHits_alive hhit) (by simp [hd])
      | succ n =>
        simp only [List.getElem?_cons_succ] at hj
        simpa using hj
    case isFalse hmiss =>
      cases j with
      | zero =>
        simp only [List.getElem?_cons_zero, Option.some.injEq] at hj
        simpa using hj
      | succ n =>
        simp only [List.getElem?_cons_succ] at hj
        simpa using ih n hj

/-- If no list entry registers the click, the Lumbridge loop is the identity:
no attack, no message, nothing written. -/
theorem Lum.handleClickList_no_hit (p : Character) (wx wy r : Int) (es : List Character)
    (h : ∀ e ∈ es, clickHits e wx wy = false) :
    Lum.handleClickList p wx wy r es = (p, es, none) := by
  induction es with
  | nil => rfl
  | cons e rest ih =>
    have he := h e (List.mem_cons_self e rest)
    unfold Lum.handleClickList
    rw [if_neg (by simp [he]), ih (fun e' he' => h e' (List.mem_cons_of_mem e he'))]

/-- Village analog of `Lum.handleClickList_no_hit`. -/
theorem MV.handleClickList_no_hit_mv (p : Character) (wx wy r : Int) (es : List Character)
    (h : ∀ e ∈ es, clickHits e wx wy = false) :
    MV.handleClickList p wx wy r es = (p, es, none) := by
  induction es with
  | nil => rfl
  | cons e rest ih =>
    have he := h e (List.mem_cons_self e rest)
    unfold MV.handleClickList
    rw [if_neg (by simp [he]), ih (fun e' he' => h e' (List.mem_cons_of_mem e he'))]

/-- An attack never raises a dead target (Lumbridge): the kill branch writes
`alive := False`, the other branch leaves `alive` untouched. -/
theorem Lum.attackEnemy_dead_dead (p e : Character) (r : Int) (h : e.alive = false) :
    (Lum.attackEnemy p e r).enemy.alive = false := by
  unfold Lum.attackEnemy
  dsimp only
  split
  · rfl
  · exact h

/-- An attack never raises a dead target (village). -/
theorem MV.attackEnemy_dead_dead_mv (p e : Character) (r : Int) (h : e.alive = false) :
    (MV.attackEnemy p e r).enemy.alive = false := by
  unfold MV.attackEnemy
  dsimp only
  split
  · split <;> rfl
  · exact h

/-- The walk-timer decay only touches the walking flag and walk timer. -/
theorem walkDecay_pos (c : Character) :
    (walkDecay c).x = c.x ∧ (walkDecay c).y = c.y ∧
    (walkDecay c).start_x = c.start_x ∧ (walkDecay c).start_y = c.start_y ∧
    (walkDecay c).alive = c.alive := by
  unfold walkDecay
  dsimp only
  repeat' split
  all_goals exact ⟨rfl, rfl, rfl, rfl, rfl⟩

/-- The Lumbridge wander update never touches the alive flag. -/
theorem Lum.enemyUpdate_alive (e : Character) (dx dy : Int) :
    (Lum.enemyUpdate e dx dy).alive = e.alive := by
  unfold Lum.enemyUpdate
  rw [(walkDecay_pos (Lum.enemyWander e dx dy)).2.2.2.2]
  unfold Lum.enemyWander
  dsimp only
  repeat' split
  all_goals rfl

/-- Neither chase phase touches the alive flag. -/
theorem MV.chaseX_alive (e : Character) (dx : Int) (bs : List Building) :
    (MV.chaseX e dx bs).alive = e.alive := by
  unfold MV.chaseX
  dsimp only
  repeat' split
  all_goals rfl

/-- Neither chase phase touches the alive flag. -/
theorem MV.chaseY_alive (e : Character) (dy : Int) (bs : List Building) :
    (MV.chaseY e dy bs).alive = e.alive := by
  unfold MV.chaseY
  dsimp only
  repeat' split
  all_goals rfl

/-- The village chase update never touches the alive flag. -/
theorem MV.enemyUpdate_alive_mv (e : Character) (px py : Int) (bs : List Building) :
    (MV.enemyUpdate e px py bs).alive = e.alive := by
  unfold MV.enemyUpdate
  dsimp only
  split
  · simp [MV.chaseY_alive, MV.chaseX_alive]
  · rfl

/-- The per-tick enemy loop preserves the length of the enemies list. -/
theorem Lum.updateEnemies_length (rand : Nat → Int × Int) (i : Nat) (es : List Character) :
    (Lum.updateEnemies rand i es).length = es.length := by
  induction es generalizing i with
  | nil => rfl
  | cons e rest ih => simp [Lum.updateEnemies, ih]

/-- A dead enemy is skipped by the per-tick enemy loop: its record is returned
exactly as stored. -/
theorem Lum.updateEnemies_dead_get (rand : Nat → Int × Int) (i : Nat) (es : List Character)
    (j : Nat) (e0 : Character) (hj : es[j]? = some e0) (hd : e0.alive = false) :
    (Lum.updateEnemies rand i es)[j]? = some e0 := by
  induction es generalizing i j with
  | nil => simp at hj
  | cons e rest ih =>
    cases j with
    | zero =>
      simp only [List.getElem?_cons_zero, Option.some.injEq] at hj
      subst hj
      simp [Lum.updateEnemies, hd]
    | succ n =>
      simp only [List.getElem?_cons_succ] at hj
      simpa [Lum.updateEnemies] using ih (i + 1) n hj

/-- One slot of the per-tick enemy loop preserves the alive flag. -/
theorem Lum.updateEnemies_slot_alive (rand : Nat → Int × Int) (i : Nat) (e : Character) :
    (if e.alive then Lum.enemyUpdate e (rand i).1 (rand i).2 else e).alive = e.alive := by
  split
  · exact Lum.enemyUpdate_alive e _ _
  · rfl

/-- The per-tick enemy loop cannot increase the alive count. -/
theorem Lum.updateEnemies_countAlive (rand : Nat → Int × Int) (i : Nat) (es : List Character) :
    countAlive (Lum.updateEnemies rand i es) ≤ countAlive es := by
  induction es generalizing i with
  | nil => exact Nat.le_refl _
  | cons e rest ih =>
    simp only [Lum.updateEnemies, countAlive, List.countP_cons,
      Lum.updateEnemies_slot_alive]
    have := ih (i + 1)
    simp only [countAlive] at this
    omega

/-- The Lumbridge click handler cannot increase the alive count (the one
attacked enemy was alive and either stays alive or dies). -/
theorem Lum.handleClickList_countAlive (p : Character) (wx wy r : Int) (es : List Character) :
    countAlive (Lum.handleClickList p wx wy r es).2.1 ≤ countAlive es := by
  induction es with
  | nil => exact Nat.le_refl _
  | cons e rest ih =>
    unfold Lum.handleClickList
    split
    case isTrue hhit =>
      have he := clickHits_alive hhit
      simp only [countAlive, List.countP_cons, he]
      split <;> simp
    case isFalse hmiss =>
      simp only [countAlive, List.countP_cons]
      simp only [countAlive] at ih
      omega

/-- `Enemy.update` never reads the `respawn_timer` attribute that
`attack_enemy` writes on defeat: running the update on a record with any
stored timer value is the same as running it first and then storing the
value. -/
theorem Lum.enemyUpdate_respawn_comm (e : Character) (dx dy t : Int) :
    Lum.enemyUpdate { e with respawn_timer := t } dx dy =
      { Lum.enemyUpdate e dx dy with respawn_timer := t } := by
  unfold Lum.enemyUpdate Lum.enemyWander walkDecay
  dsimp only
  repeat' split
  all_goals rfl

/-- Invariant preservation by one Lumbridge attack: with a nonnegative damage
roll, a surviving target keeps `0 < hp ≤ max_hp`, and the alive flag is false
whenever the resulting hit points are ≤ 0. -/
theorem Lum.attackEnemy_inv (p e : Character) (r : Int)
    (ha : 0 ≤ p.attack) (hr : 0 ≤ r) (h1 : 0 < e.hp) (h2 : e.hp ≤ e.max_hp) :
    ((Lum.attackEnemy p e r).enemy.alive = true →
        0 < (Lum.attackEnemy p e r).enemy.hp ∧
        (Lum.attackEnemy p e r).enemy.hp ≤ (Lum.attackEnemy p e r).enemy.max_hp) ∧
    ((Lum.attackEnemy p e r).enemy.hp ≤ 0 → (Lum.attackEnemy p e r).enemy.alive = false) := by
  unfold Lum.attackEnemy
  dsimp only
  split
  case isTrue hkill =>
    dsimp only
    exact ⟨fun hcontra => by simp at hcontra, fun _ => rfl⟩
  case isFalse hlive =>
    dsimp only
    exact ⟨fun _ => ⟨by omega, by omega⟩, fun hle => absurd hle hlive⟩

/-! ### C4 -/

/-- C4 (confirmed): a dead target is never attacked.  In both variants the
`handle_click` loop skips enemies whose alive flag is false, so (i) every dead
entry of the enemies list — its hp, alive flag, everything — is returned
exactly as stored, for any click; and (ii) when no alive enemy contains the
click point (in particular when the click lands on a dead target only), the
whole game state, including the attacker's XP and gold totals and the status
message, is unchanged. -/
theorem c4_dead_target_noop :
    (∀ (g : GameState) (wx wy r : Int) (j : Nat) (e0 : Character),
        g.enemies[j]? = some e0 → e0.alive = false →
        (Lum.handleClick g wx wy r).enemies[j]? = some e0) ∧
    (∀ (g : GameState) (wx wy r : Int),
        (∀ e ∈ g.enemies, clickHits e wx wy = false) → Lum.handleClick g wx wy r = g) ∧
    (∀ (g : GameState) (wx wy r : Int) (j : Nat) (e0 : Character),
        g.enemies[j]? = some e0 → e0.alive = false →
        (MV.handleClick g wx wy r).enemies[j]? = some e0) ∧
    (∀ (g : GameState) (wx wy r : Int),
        (∀ e ∈ g.enemies, clickHits e wx wy = false) → MV.handleClick g wx wy r = g) := by
  refine ⟨?_, ?_, ?_, ?_⟩
  · intro g wx wy r j e0 hj hd
    exact Lum.handleClickList_dead_get g.player wx wy r g.enemies j e0 hj hd
  · intro g wx wy r h
    unfold Lum.handleClick
    rw [Lum.handleClickList_no_hit g.player wx wy r g.enemies h]
    simp
  · intro g wx wy r j e0 hj hd
    exact MV.handleClickList_dead_get_mv g.player wx wy r g.enemies j e0 hj hd
  · intro g wx wy r h
    unfold MV.handleClick
    rw [MV.handleClickList_no_hit_mv g.player wx wy r g.enemies h]
    simp

/-- C4 scenario: one tombstoned enemy at (500,500); the click lands inside
its rectangle. -/
def Lum.c4State : GameState :=
  { player := { x := 0, y := 0, speed := 4 },
    enemies := [{ x := 500, y := 500, hp := -2, alive := false }],
    message := "Welcome", message_timer := 9 }

/-- C4 witness: clicking the dead enemy changes nothing at all. -/
theorem c4_dead_target_noop_witness :
    Lum.handleClick Lum.c4State 510 510 1 = Lum.c4State :=
  c4_dead_target_noop.2.1 Lum.c4State 510 510 1 (by decide)

/-! ### C5 -/

/-- C5 (confirmed): entity liveness invariant.  (i) Under a nonnegative damage
roll, an attack keeps `0 < hp ≤ max_hp` whenever the target is still alive
afterwards, and leaves the alive flag false whenever the resulting hp is ≤ 0
(the flag is written in the same call that drops hp).  (ii) The per-tick enemy
loop skips dead enemies: a dead entry is returned exactly as stored.
(iii) Click targeting skips dead enemies likewise.  (iv)+(v) Neither the
per-tick loop nor click handling removes anything from the enemies collection:
the list length is always preserved (dead entities persist as tombstones). -/
theorem c5_liveness_invariant :
    (∀ (p e : Character) (r : Int), 0 ≤ p.attack → 0 ≤ r → 0 < e.hp → e.hp ≤ e.max_hp →
        (((Lum.attackEnemy p e r).enemy.alive = true →
            0 < (Lum.attackEnemy p e r).enemy.hp ∧
            (Lum.attackEnemy p e r).enemy.hp ≤ (Lum.attackEnemy p e r).enemy.max_hp) ∧
         ((Lum.attackEnemy p e r).enemy.hp ≤ 0 → (Lum.attackEnemy p e r).enemy.alive = false))) ∧
    (∀ (rand : Nat → Int × Int) (i : Nat) (es : List Character) (j : Nat) (e0 : Character),
        es[j]? = some e0 → e0.alive = false → (Lum.updateEnemies rand i es)[j]? = some e0) ∧
    (∀ (g : GameState) (wx wy r : Int) (j : Nat) (e0 : Character),
        g.enemies[j]? = some e0 → e0.alive = false →
        (Lum.handleClick g wx wy r).enemies[j]? = some e0) ∧
    (∀ (rand : Nat → Int × Int) (i : Nat) (es : List Character),
        (Lum.updateEnemies rand i es).length = es.length) ∧
    (∀ (g : GameState) (wx wy r : Int),
        (Lum.handleClick g wx wy r).enemies.length = g.enemies.length) := by
  refine ⟨?_, ?_, ?_, ?_, ?_⟩
  · intro p e r ha hr h1 h2
    exact Lum.attackEnemy_inv p e r ha hr h1 h2
  · intro rand i es j e0 hj hd
    exact Lum.updateEnemies_dead_get rand i es j e0 hj hd
  · intro g wx wy r j e0 hj hd
    exact Lum.handleClickList_dead_get g.player wx wy r g.enemies j e0 hj hd
  · intro rand i es
    exact Lum.updateEnemies_length rand i es
  · intro g wx wy r
    exact Lum.handleClickList_length g.player wx wy r g.enemies

/-- C5 witness dead enemy record. -/
def Lum.c5Dead : Character := { x := 500, y := 500, hp := 0, alive := false }

/-- C5 witness: one update tick over a singleton list containing a tombstoned
enemy returns the record unchanged. -/
theorem c5_liveness_invariant_witness :
    (Lum.updateEnemies (fun _ => (1, 1)) 0 [Lum.c5Dead])[0]? = some Lum.c5Dead :=
  c5_liveness_invariant.2.1 (fun _ => (1, 1)) 0 [Lum.c5Dead] 0 Lum.c5Dead (by decide) (by decide)

/-! ### C10 -/

/-- An attack never raises a dead target (`medieval_game.py`, the third
variant's only operation that writes the alive flag outside a constructor). -/
theorem MG.attackEnemy_dead_dead_mg (p e : Character) (h : e.alive = false) :
    (MG.attackEnemy p e).enemy.alive = false := by
  unfold MG.attackEnemy
  dsimp only
  split
  · split <;> rfl
  · exact h

/-- The village per-tick enemy loop cannot increase the alive count. -/
theorem MV.updateEnemies_countAlive_mv (px py : Int) (bs : List Building)
    (es : List Character) :
    countAlive (MV.updateEnemies px py bs es) ≤ countAlive es := by
  induction es with
  | nil => exact Nat.le_refl _
  | cons e rest ih =>
    have hslot : (if e.alive then MV.enemyUpdate e px py bs else e).alive = e.alive := by
      split
      · exact MV.enemyUpdate_alive_mv e px py bs
      · rfl
    simp only [MV.updateEnemies, List.map_cons, countAlive, List.countP_cons, hslot] at ih ⊢
    omega

/-- The village click handler cannot increase the alive count. -/
theorem MV.handleClickList_countAlive_mv (p : Character) (wx wy r : Int)
    (es : List Character) :
    countAlive (MV.handleClickList p wx wy r es).2.1 ≤ countAlive es := by
  induction es with
  | nil => exact Nat.le_refl _
  | cons e rest ih =>
    unfold MV.handleClickList
    split
    case isTrue hhit =>
      have he := clickHits_alive hhit
      simp only [countAlive, List.countP_cons, he]
      split <;> simp
    case isFalse hmiss =>
      simp only [countAlive, List.countP_cons]
      simp only [countAlive] at ih
      omega

/-- C10 (confirmed): defeat is permanent.  No modelled operation in any
variant ever turns the alive flag back on: attacks in all three variants map a
dead target to a dead target; the wander and chase updates never touch the
flag; the Lumbridge wander update is oblivious to the `respawn_timer` field
written on defeat (updating an enemy with any stored timer value commutes with
writing that value, i.e. the field is never read); and consequently the
alive-enemy count never increases across an update tick or a click, in the
Lumbridge and village variants alike (the `medieval_game.py` variant has no
enemy update loop; its only alive-writing operation is the attack). -/
theorem c10_defeat_permanent :
    (∀ (p e : Character) (r : Int), e.alive = false → (Lum.attackEnemy p e r).enemy.alive = false) ∧
    (∀ (p e : Character) (r : Int), e.alive = false → (MV.attackEnemy p e r).enemy.alive = false) ∧
    (∀ (e : Character) (dx dy : Int), (Lum.enemyUpdate e dx dy).alive = e.alive) ∧
    (∀ (e : Character) (px py : Int) (bs : List Building),
        (MV.enemyUpdate e px py bs).alive = e.alive) ∧
    (∀ (e : Character) (dx dy t : Int),
        Lum.enemyUpdate { e with respawn_timer := t } dx dy =
          { Lum.enemyUpdate e dx dy with respawn_timer := t }) ∧
    (∀ (rand : Nat → Int × Int) (i : Nat) (es : List Character),
        countAlive (Lum.updateEnemies rand i es) ≤ countAlive es) ∧
    (∀ (g : GameState) (wx wy r : Int),
        countAlive (Lum.handleClick g wx wy r).enemies ≤ countAlive g.enemies) ∧
    (∀ (p e : Character), e.alive = false → (MG.attackEnemy p e).enemy.alive = false) ∧
    (∀ (px py : Int) (bs : List Building) (es : List Character),
        countAlive (MV.updateEnemies px py bs es) ≤ countAlive es) ∧
    (∀ (g : GameState) (wx wy r : Int),
        countAlive (MV.handleClick g wx wy r).enemies ≤ countAlive g.enemies) := by
  refine ⟨?_, ?_, ?_, ?_, ?_, ?_, ?_, ?_, ?_, ?_⟩
  · intro p e r h
    exact Lum.attackEnemy_dead_dead p e r h
  · intro p e r h
    exact MV.attackEnemy_dead_dead_mv p e r h
  · intro e dx dy
    exact Lum.enemyUpdate_alive e dx dy
  · intro e px py bs
    exact MV.enemyUpdate_alive_mv e px py bs
  · intro e dx dy t
    exact Lum.enemyUpdate_respawn_comm e dx dy t
  · intro rand i es
    exact Lum.updateEnemies_countAlive rand i es
  · intro g wx wy r
    exact Lum.handleClickList_countAlive g.player wx wy r g.enemies
  · intro p e h
    exact MG.attackEnemy_dead_dead_mg p e h
  · intro px py bs es
    exact MV.updateEnemies_countAlive_mv px py bs es
  · intro g wx wy r
    exact MV.handleClickList_countAlive_mv g.player wx wy r g.enemies

/-- C10 witness: attacking an already-dead enemy leaves it dead. -/
theorem c10_defeat_permanent_witness :
    (Lum.attackEnemy { attack := 1 } { x := 700, hp := -3, alive := false } 2).enemy.alive = false :=
  c10_defeat_permanent.1 { attack := 1 } { x := 700, hp := -3, alive := false } 2 rfl

/-! ### C6 -/

/-- C6 (confirmed): single level-up per resolved attack with full heal, in both
variants with explicit leveling.  When a killing attack brings the accumulated
experience to at least `level * 50` (`medieval_game.py`) resp. `level * 100`
(`medieval_village.py`) — by however much it overshoots, even past several
thresholds — the level rises by exactly one, attack and defense each rise by
1, max hp rises by 2 resp. 3, and hp is set to the new max; below the
threshold the level is unchanged. -/
theorem c6_single_levelup :
    (∀ p e : Character, e.hp - p.attack ≤ 0 →
        (p.combat_xp + e.level * 10 ≥ p.level * 50 →
           (MG.attackEnemy p e).player.level = p.level + 1 ∧
           (MG.attackEnemy p e).player.attack = p.attack + 1 ∧
           (MG.attackEnemy p e).player.defense = p.defense + 1 ∧
           (MG.attackEnemy p e).player.max_hp = p.max_hp + 2 ∧
           (MG.attackEnemy p e).player.hp = (MG.attackEnemy p e).player.max_hp) ∧
        (p.combat_xp + e.level * 10 < p.level * 50 →
           (MG.attackEnemy p e).player.level = p.level)) ∧
    (∀ (p e : Character) (r : Int), e.hp - (p.attack + r) ≤ 0 →
        (p.combat_xp + e.level * 15 ≥ p.level * 100 →
           (MV.attackEnemy p e r).player.level = p.level + 1 ∧
           (MV.attackEnemy p e r).player.attack = p.attack + 1 ∧
           (MV.attackEnemy p e r).player.defense = p.defense + 1 ∧
           (MV.attackEnemy p e r).player.max_hp = p.max_hp + 3 ∧
           (MV.attackEnemy p e r).player.hp = (MV.attackEnemy p e r).player.max_hp) ∧
        (p.combat_xp + e.level * 15 < p.level * 100 →
           (MV.attackEnemy p e r).player.level = p.level)) := by
  constructor
  · intro p e hkill
    unfold MG.attackEnemy
    dsimp only
    split
    case isTrue hk =>
      refine ⟨fun hthresh => ?_, fun hthresh => ?_⟩
      · split
        case isTrue => dsimp only; exact ⟨rfl, rfl, rfl, rfl, rfl⟩
        case isFalse hcon => exact (hcon hthresh).elim
      · split
        case isTrue hcon => dsimp only; omega
        case isFalse => rfl
    case isFalse hk => exact (hk hkill).elim
  · intro p e r hkill
    unfold MV.attackEnemy
    dsimp only
    split
    case isTrue hk =>
      refine ⟨fun hthresh => ?_, fun hthresh => ?_⟩
      · split
        case isTrue => dsimp only; exact ⟨rfl, rfl, rfl, rfl, rfl⟩
        case isFalse hcon => exact (hcon hthresh).elim
      · split
        case isTrue hcon => dsimp only; omega
        case isFalse => rfl
    case isFalse hk => exact (hk hkill).elim

/-- C6 witness player: level 1 with 40 XP banked, so the +100 XP from the kill
overshoots both the level-1 threshold (50) and twice it. -/
def MG.c6Player : Character := { level := 1, combat_xp := 40, attack := 1 }

/-- C6 witness target: a level-10 enemy at 1 hp (kill grants 100 XP). -/
def MG.c6Enemy : Character := { level := 10, hp := 1 }

/-- C6 witness: despite the double overshoot the player ends at level 2. -/
theorem c6_single_levelup_witness :
    (MG.attackEnemy MG.c6Player MG.c6Enemy).player.level = MG.c6Player.level + 1 ∧
    (MG.attackEnemy MG.c6Player MG.c6Enemy).player.attack = MG.c6Player.attack + 1 ∧
    (MG.attackEnemy MG.c6Player MG.c6Enemy).player.defense = MG.c6Player.defense + 1 ∧
    (MG.attackEnemy MG.c6Player MG.c6Enemy).player.max_hp = MG.c6Player.max_hp + 2 ∧
    (MG.attackEnemy MG.c6Player MG.c6Enemy).player.hp =
      (MG.attackEnemy MG.c6Player MG.c6Enemy).player.max_hp :=
  (c6_single_levelup.1 MG.c6Player MG.c6Enemy (by decide)).1 (by decide)

/-! ### C7 -/

/-- C7 (confirmed): defeat reward formula.  A killing attack marks the target
not-alive and credits the attacker exactly `level * 5` gold and `level * 10`
XP in the Lumbridge variant — with the flat override of 5 XP for chickens —
and exactly `level * 10` gold and `level * 15` XP in the village variant. -/
theorem c7_defeat_reward :
    (∀ (p e : Character) (r : Int), e.hp - (p.attack + r) ≤ 0 →
        (Lum.attackEnemy p e r).enemy.alive = false ∧
        (Lum.attackEnemy p e r).player.gold = p.gold + e.level * 5 ∧
        (Lum.attackEnemy p e r).player.combat_xp =
          p.combat_xp + (if e.enemy_type ≠ "chicken" then e.level * 10 else 5)) ∧
    (∀ (p e : Character) (r : Int), e.hp - (p.attack + r) ≤ 0 →
        (MV.attackEnemy p e r).enemy.alive = false ∧
        (MV.attackEnemy p e r).player.gold = p.gold + e.level * 10 ∧
        (MV.attackEnemy p e r).player.combat_xp = p.combat_xp + e.level * 15) := by
  constructor
  · intro p e r hkill
    unfold Lum.attackEnemy
    dsimp only
    split
    case isTrue hk => exact ⟨rfl, rfl, rfl⟩
    case isFalse hk => exact (hk hkill).elim
  · intro p e r hkill
    unfold MV.attackEnemy
    dsimp only
    split
    case isTrue hk =>
      split
      case isTrue => exact ⟨rfl, rfl, rfl⟩
      case isFalse => exact ⟨rfl, rfl, rfl⟩
    case isFalse hk => exact (hk hkill).elim

/-- C7 witness target: the spec example, a level-2 goblin at 1 hp. -/
def Lum.c7Goblin : Character := { level := 2, hp := 1, enemy_type := "goblin" }

/-- C7 witness: killing the level-2 goblin grants +20 XP and +10 coins. -/
theorem c7_defeat_reward_witness :
    (Lum.attackEnemy { attack := 1 } Lum.c7Goblin 0).enemy.alive = false ∧
    (Lum.attackEnemy { attack := 1 } Lum.c7Goblin 0).player.gold =
      ({ attack := 1 } : Character).gold + Lum.c7Goblin.level * 5 ∧
    (Lum.attackEnemy { attack := 1 } Lum.c7Goblin 0).player.combat_xp =
      ({ attack := 1 } : Character).combat_xp +
        (if Lum.c7Goblin.enemy_type ≠ "chicken" then Lum.c7Goblin.level * 10 else 5) :=
  c7_defeat_reward.1 { attack := 1 } Lum.c7Goblin 0 (by decide)

/-! ### C8 -/

/-- The walk-timer decay never touches the wander area. -/
theorem walkDecay_wander_area (c : Character) :
    (walkDecay c).wander_area = c.wander_area := by
  unfold walkDecay
  dsimp only
  repeat' split
  all_goals rfl

/-- One Lumbridge wandering-Enemy wander phase keeps the home anchor fields,
the wander area, and the per-axis `wander_area` home box: a proposal is
installed only when both `abs(new - start) < wander_area` checks pass. -/
theorem Lum.enemyWander_inv (e : Character) (dx dy : Int)
    (hx : |e.x - e.start_x| < e.wander_area) (hy : |e.y - e.start_y| < e.wander_area) :
    (Lum.enemyWander e dx dy).start_x = e.start_x ∧
    (Lum.enemyWander e dx dy).start_y = e.start_y ∧
    (Lum.enemyWander e dx dy).wander_area = e.wander_area ∧
    |(Lum.enemyWander e dx dy).x - e.start_x| < e.wander_area ∧
    |(Lum.enemyWander e dx dy).y - e.start_y| < e.wander_area := by
  unfold Lum.enemyWander
  dsimp only
  repeat' split
  all_goals first
    | exact ⟨rfl, rfl, rfl, hx, hy⟩
    | simp_all

/-- The full Lumbridge wandering-Enemy update (wander phase plus walk-timer
decay) keeps the home anchor fields, the wander area, and the home box. -/
theorem Lum.enemyUpdate_inv (e : Character) (dx dy : Int)
    (hx : |e.x - e.start_x| < e.wander_area) (hy : |e.y - e.start_y| < e.wander_area) :
    (Lum.enemyUpdate e dx dy).start_x = e.start_x ∧
    (Lum.enemyUpdate e dx dy).start_y = e.start_y ∧
    (Lum.enemyUpdate e dx dy).wander_area = e.wander_area ∧
    |(Lum.enemyUpdate e dx dy).x - e.start_x| < e.wander_area ∧
    |(Lum.enemyUpdate e dx dy).y - e.start_y| < e.wander_area := by
  obtain ⟨hw1, hw2, hw3, hw4, hw5⟩ := Lum.enemyWander_inv e dx dy hx hy
  obtain ⟨hdx, hdy, hdsx, hdsy, _⟩ := walkDecay_pos (Lum.enemyWander e dx dy)
  have hdwa := walkDecay_wander_area (Lum.enemyWander e dx dy)
  unfold Lum.enemyUpdate
  rw [hdx, hdy, hdsx, hdsy, hdwa]
  exact ⟨hw1, hw2, hw3, hw4, hw5⟩

/-- Iterated Lumbridge wandering-Enemy update: one entry of `ticks` per call
of `Enemy.update`, carrying that tick's random draws. -/
def Lum.enemyIterate (e : Character) : List (Int × Int) → Character
  | [] => e
  | (dx, dy) :: rest => Lum.enemyIterate (Lum.enemyUpdate e dx dy) rest

/-- Iterating the Lumbridge wandering-Enemy update preserves the
`wander_area` home box. -/
theorem Lum.enemyIterate_inv (ticks : List (Int × Int)) (e : Character)
    (hx : |e.x - e.start_x| < e.wander_area) (hy : |e.y - e.start_y| < e.wander_area) :
    (Lum.enemyIterate e ticks).start_x = e.start_x ∧
    (Lum.enemyIterate e ticks).start_y = e.start_y ∧
    (Lum.enemyIterate e ticks).wander_area = e.wander_area ∧
    |(Lum.enemyIterate e ticks).x - e.start_x| < e.wander_area ∧
    |(Lum.enemyIterate e ticks).y - e.start_y| < e.wander_area := by
  induction ticks generalizing e with
  | nil => exact ⟨rfl, rfl, rfl, hx, hy⟩
  | cons t rest ih =>
    obtain ⟨dx, dy⟩ := t
    obtain ⟨hs1, hs2, hs3, hb1, hb2⟩ := Lum.enemyUpdate_inv e dx dy hx hy
    have ih2 := ih (Lum.enemyUpdate e dx dy)
      (by rw [hs1, hs3]; exact hb1) (by rw [hs2, hs3]; exact hb2)
    obtain ⟨is1, is2, is3, ib1, ib2⟩ := ih2
    rw [hs1] at is1
    rw [hs2] at is2
    rw [hs3] at is3
    rw [hs1, hs3] at ib1
    rw [hs2, hs3] at ib2
    simp only [Lum.enemyIterate]
    exact ⟨is1, is2, is3, ib1, ib2⟩

/-- One Lumbridge NPC wander step keeps the home anchor fields and the
per-axis 30-pixel home box: a proposal is installed only when both
`abs(new - start) < 30` checks pass. -/
theorem Lum.npcUpdate_inv (n : Character) (dx dy cd : Int)
    (hx : |n.x - n.start_x| < 30) (hy : |n.y - n.start_y| < 30) :
    (Lum.npcUpdate n dx dy cd).start_x = n.start_x ∧
    (Lum.npcUpdate n dx dy cd).start_y = n.start_y ∧
    |(Lum.npcUpdate n dx dy cd).x - n.start_x| < 30 ∧
    |(Lum.npcUpdate n dx dy cd).y - n.start_y| < 30 := by
  unfold Lum.npcUpdate
  dsimp only
  split
  · split
    case isTrue h => exact ⟨rfl, rfl, h.1, h.2⟩
    case isFalse h => exact ⟨rfl, rfl, hx, hy⟩
  · exact ⟨rfl, rfl, hx, hy⟩

/-- Iterating the Lumbridge NPC wander preserves the 30-pixel home box. -/
theorem Lum.npcIterate_inv (ticks : List (Int × Int × Int)) (n : Character)
    (hx : |n.x - n.start_x| < 30) (hy : |n.y - n.start_y| < 30) :
    (Lum.npcIterate n ticks).start_x = n.start_x ∧
    (Lum.npcIterate n ticks).start_y = n.start_y ∧
    |(Lum.npcIterate n ticks).x - n.start_x| < 30 ∧
    |(Lum.npcIterate n ticks).y - n.start_y| < 30 := by
  induction ticks generalizing n with
  | nil => exact ⟨rfl, rfl, hx, hy⟩
  | cons t rest ih =>
    obtain ⟨dx, dy, cd⟩ := t
    obtain ⟨hs1, hs2, hb1, hb2⟩ := Lum.npcUpdate_inv n dx dy cd hx hy
    have ih2 := ih (Lum.npcUpdate n dx dy cd) (by rw [hs1]; exact hb1) (by rw [hs2]; exact hb2)
    obtain ⟨is1, is2, ib1, ib2⟩ := ih2
    rw [hs1] at is1 ib1
    rw [hs2] at is2 ib2
    simp only [Lum.npcIterate]
    exact ⟨is1, is2, ib1, ib2⟩

/-- One village NPC wander step keeps the home anchor fields and the per-axis
100-pixel home box (the building-collision filter can only reject more). -/
theorem MV.npcUpdate_inv_mv (n : Character) (bs : List Building) (dx dy cd : Int)
    (hx : |n.x - n.start_x| < 100) (hy : |n.y - n.start_y| < 100) :
    (MV.npcUpdate n bs dx dy cd).start_x = n.start_x ∧
    (MV.npcUpdate n bs dx dy cd).start_y = n.start_y ∧
    |(MV.npcUpdate n bs dx dy cd).x - n.start_x| < 100 ∧
    |(MV.npcUpdate n bs dx dy cd).y - n.start_y| < 100 := by
  have hw : (MV.npcWander n bs dx dy cd).start_x = n.start_x ∧
      (MV.npcWander n bs dx dy cd).start_y = n.start_y ∧
      |(MV.npcWander n bs dx dy cd).x - n.start_x| < 100 ∧
      |(MV.npcWander n bs dx dy cd).y - n.start_y| < 100 := by
    unfold MV.npcWander
    dsimp only
    repeat' split
    all_goals first
      | exact ⟨rfl, rfl, hx, hy⟩
      | simp_all
  obtain ⟨h1, h2, h3, h4⟩ := hw
  obtain ⟨px, py, psx, psy, _⟩ := walkDecay_pos (MV.npcWander n bs dx dy cd)
  unfold MV.npcUpdate
  rw [px, py, psx, psy]
  exact ⟨h1, h2, h3, h4⟩

/-- Iterating the village NPC wander preserves the 100-pixel home box. -/
theorem MV.npcIterate_inv_mv (ticks : List (Int × Int × Int)) (n : Character)
    (bs : List Building)
    (hx : |n.x - n.start_x| < 100) (hy : |n.y - n.start_y| < 100) :
    (MV.npcIterate n bs ticks).start_x = n.start_x ∧
    (MV.npcIterate n bs ticks).start_y = n.start_y ∧
    |(MV.npcIterate n bs ticks).x - n.start_x| < 100 ∧
    |(MV.npcIterate n bs ticks).y - n.start_y| < 100 := by
  induction ticks generalizing n with
  | nil => exact ⟨rfl, rfl, hx, hy⟩
  | cons t rest ih =>
    obtain ⟨dx, dy, cd⟩ := t
    obtain ⟨hs1, hs2, hb1, hb2⟩ := MV.npcUpdate_inv_mv n bs dx dy cd hx hy
    have ih2 := ih (MV.npcUpdate n bs dx dy cd) (by rw [hs1]; exact hb1) (by rw [hs2]; exact hb2)
    obtain ⟨is1, is2, ib1, ib2⟩ := ih2
    rw [hs1] at is1 ib1
    rw [hs2] at is2 ib2
    simp only [MV.npcIterate]
    exact ⟨is1, is2, ib1, ib2⟩

/-- C8 (confirmed): wander home-radius invariant.  Starting from its recorded
home position, a wandering NPC or wandering enemy stays within the configured
home radius of that position — per axis, the radius the acceptance test
measures — after any number of update ticks and for any sequence of random
draws: 30 pixels for Lumbridge NPCs, 100 pixels (with the additional
building-overlap rejection) for village NPCs, and the per-enemy
`wander_area` box (100 pixels in the game) for Lumbridge wandering enemies. -/
theorem c8_wander_home_radius :
    (∀ (n : Character) (ticks : List (Int × Int × Int)),
        n.x = n.start_x → n.y = n.start_y →
        |(Lum.npcIterate n ticks).x - n.start_x| < 30 ∧
        |(Lum.npcIterate n ticks).y - n.start_y| < 30) ∧
    (∀ (n : Character) (bs : List Building) (ticks : List (Int × Int × Int)),
        n.x = n.start_x → n.y = n.start_y →
        |(MV.npcIterate n bs ticks).x - n.start_x| < 100 ∧
        |(MV.npcIterate n bs ticks).y - n.start_y| < 100) ∧
    (∀ (e : Character) (ticks : List (Int × Int)),
        e.x = e.start_x → e.y = e.start_y → 0 < e.wander_area →
        |(Lum.enemyIterate e ticks).x - e.start_x| < e.wander_area ∧
        |(Lum.enemyIterate e ticks).y - e.start_y| < e.wander_area) := by
  refine ⟨?_, ?_, ?_⟩
  · intro n ticks hx hy
    have h := Lum.npcIterate_inv ticks n (by rw [hx]; simp) (by rw [hy]; simp)
    exact ⟨h.2.2.1, h.2.2.2⟩
  · intro n bs ticks hx hy
    have h := MV.npcIterate_inv_mv ticks n bs (by rw [hx]; simp) (by rw [hy]; simp)
    exact ⟨h.2.2.1, h.2.2.2⟩
  · intro e ticks hx hy ha
    have h := Lum.enemyIterate_inv ticks e
      (by rw [hx]; simpa using ha) (by rw [hy]; simpa using ha)
    exact ⟨h.2.2.2.1, h.2.2.2.2⟩

/-- C8 witness NPC: a guard at its home position with a short cooldown. -/
def Lum.c8Npc : Character :=
  { x := 950, y := 540, start_x := 950, start_y := 540, speed := 1, wander_cooldown := 1 }

/-- C8 witness: four wander ticks (all pushing north-east) leave the guard
inside the 30-pixel home box. -/
theorem c8_wander_home_radius_witness :
    |(Lum.npcIterate Lum.c8Npc [(1, 1, 1), (1, 1, 1), (1, 1, 1), (1, 1, 1)]).x -
        Lum.c8Npc.start_x| < 30 ∧
    |(Lum.npcIterate Lum.c8Npc [(1, 1, 1), (1, 1, 1), (1, 1, 1), (1, 1, 1)]).y -
        Lum.c8Npc.start_y| < 30 :=
  c8_wander_home_radius.1 Lum.c8Npc [(1, 1, 1), (1, 1, 1), (1, 1, 1), (1, 1, 1)] rfl rfl

/-! ### C9 -/

/-- Within the horizontal dead zone (`abs(dx) <= 5`) the x chase phase does
nothing. -/
theorem MV.chaseX_dead_zone (e : Character) (dx : Int) (bs : List Building)
    (h : ¬ |dx| > 5) : MV.chaseX e dx bs = e := by
  unfold MV.chaseX
  rw [if_neg h]

/-- A building-blocked x chase step does nothing. -/
theorem MV.chaseX_blocked (e : Character) (dx : Int) (bs : List Building) (h : |dx| > 5)
    (hc : collidesAny ⟨e.x + (if dx > 0 then e.speed else -e.speed), e.y, e.width, e.height⟩
      bs = true) :
    MV.chaseX e dx bs = e := by
  simp [MV.chaseX, h, hc]

/-- An unobstructed x chase step outside the dead zone moves by `speed` toward
the player, faces that way and sets walking. -/
theorem MV.chaseX_step (e : Character) (dx : Int) (bs : List Building) (h : |dx| > 5)
    (hc : collidesAny ⟨e.x + (if dx > 0 then e.speed else -e.speed), e.y, e.width, e.height⟩
      bs = false) :
    MV.chaseX e dx bs =
      { e with x := e.x + (if dx > 0 then e.speed else -e.speed),
               direction := if dx > 0 then 1 else 3, walking := true } := by
  simp [MV.chaseX, h, hc]

/-- Within the vertical dead zone the y chase phase does nothing. -/
theorem MV.chaseY_dead_zone (e : Character) (dy : Int) (bs : List Building)
    (h : ¬ |dy| > 5) : MV.chaseY e dy bs = e := by
  unfold MV.chaseY
  rw [if_neg h]

/-- A building-blocked y chase step does nothing. -/
theorem MV.chaseY_blocked (e : Character) (dy : Int) (bs : List Building) (h : |dy| > 5)
    (hc : collidesAny ⟨e.x, e.y + (if dy > 0 then e.speed else -e.speed), e.width, e.height⟩
      bs = true) :
    MV.chaseY e dy bs = e := by
  simp [MV.chaseY, h, hc]

/-- An unobstructed y chase step outside the dead zone moves by `speed` toward
the player, faces that way and sets walking. -/
theorem MV.chaseY_step (e : Character) (dy : Int) (bs : List Building) (h : |dy| > 5)
    (hc : collidesAny ⟨e.x, e.y + (if dy > 0 then e.speed else -e.speed), e.width, e.height⟩
      bs = false) :
    MV.chaseY e dy bs =
      { e with y := e.y + (if dy > 0 then e.speed else -e.speed),
               direction := if dy > 0 then 0 else 2, walking := true } := by
  simp [MV.chaseY, h, hc]

/-- The x chase phase never touches y, speed, sizes, chasing, or the walk
timer. -/
theorem MV.chaseX_proj (e : Character) (dx : Int) (bs : List Building) :
    (MV.chaseX e dx bs).y = e.y ∧ (MV.chaseX e dx bs).speed = e.speed ∧
    (MV.chaseX e dx bs).width = e.width ∧ (MV.chaseX e dx bs).height = e.height ∧
    (MV.chaseX e dx bs).chasing = e.chasing ∧
    (MV.chaseX e dx bs).walk_timer = e.walk_timer := by
  unfold MV.chaseX
  dsimp only
  repeat' split
  all_goals exact ⟨rfl, rfl, rfl, rfl, rfl, rfl⟩

/-- The y chase phase never touches x, speed, sizes, chasing, or the walk
timer. -/
theorem MV.chaseY_proj (e : Character) (dy : Int) (bs : List Building) :
    (MV.chaseY e dy bs).x = e.x ∧ (MV.chaseY e dy bs).speed = e.speed ∧
    (MV.chaseY e dy bs).width = e.width ∧ (MV.chaseY e dy bs).height = e.height ∧
    (MV.chaseY e dy bs).chasing = e.chasing ∧
    (MV.chaseY e dy bs).walk_timer = e.walk_timer := by
  unfold MV.chaseY
  dsimp only
  repeat' split
  all_goals exact ⟨rfl, rfl, rfl, rfl, rfl, rfl⟩

/-- The y chase phase never clears an already-set walking flag. -/
theorem MV.chaseY_walking_mono (e : Character) (dy : Int) (bs : List Building)
    (h : e.walking = true) : (MV.chaseY e dy bs).walking = true := by
  unfold MV.chaseY
  dsimp only
  repeat' split
  all_goals first | rfl | exact h

/-- Out of aggro range the chase update only clears the chasing and walking
flags. -/
theorem MV.enemyUpdate_far (e : Character) (px py : Int) (bs : List Building)
    (hfar : ¬ ((px - e.x) * (px - e.x) + (py - e.y) * (py - e.y) <
      e.aggro_range * e.aggro_range)) :
    MV.enemyUpdate e px py bs = { e with chasing := false, walking := false } := by
  unfold MV.enemyUpdate
  dsimp only
  rw [if_neg hfar]

/-- In aggro range the chase update is the two chase phases on the
chasing-marked record, followed by the walk-timer increment. -/
theorem MV.enemyUpdate_near (e : Character) (px py : Int) (bs : List Building)
    (hnear : (px - e.x) * (px - e.x) + (py - e.y) * (py - e.y) <
      e.aggro_range * e.aggro_range) :
    MV.enemyUpdate e px py bs =
      { MV.chaseY (MV.chaseX { e with chasing := true } (px - e.x) bs) (py - e.y) bs with
          walk_timer :=
            (MV.chaseY (MV.chaseX { e with chasing := true } (px - e.x) bs)
              (py - e.y) bs).walk_timer + 1 } := by
  unfold MV.enemyUpdate
  dsimp only
  rw [if_pos hnear]

/-- A unit step toward a point more than 5 away closes the axis distance by
exactly one. -/
theorem abs_step_closer (d : Int) (h : |d| > 5) :
    |d - (if d > 0 then 1 else -1)| = |d| - 1 := by
  by_cases hd : d > 0
  · rw [abs_of_pos hd] at h
    rw [if_pos hd, abs_of_pos hd, abs_of_pos (by omega)]
  · rw [abs_of_nonpos (by omega)] at h
    rw [if_neg hd, abs_of_nonpos (by omega), abs_of_neg (by omega)]
    omega

/-- `MV.chaseY_step` with the projections of the argument record abstracted,
for applying to an opaque intermediate state. -/
theorem MV.chaseY_step_ext (e : Character) (dy : Int) (bs : List Building)
    (Y S W H : Int) (hY : e.y = Y) (hS : e.speed = S) (hW : e.width = W) (hH : e.height = H)
    (h : |dy| > 5)
    (hc : collidesAny ⟨e.x, Y + (if dy > 0 then S else -S), W, H⟩ bs = false) :
    MV.chaseY e dy bs =
      { e with y := Y + (if dy > 0 then S else -S),
               direction := if dy > 0 then 0 else 2, walking := true } := by
  subst hY hS hW hH
  exact MV.chaseY_step e dy bs h hc

/-- `MV.chaseY_blocked` with the projections of the argument record
abstracted. -/
theorem MV.chaseY_blocked_ext (e : Character) (dy : Int) (bs : List Building)
    (Y S W H : Int) (hY : e.y = Y) (hS : e.speed = S) (hW : e.width = W) (hH : e.height = H)
    (h : |dy| > 5)
    (hc : collidesAny ⟨e.x, Y + (if dy > 0 then S else -S), W, H⟩ bs = true) :
    MV.chaseY e dy bs = e := by
  subst hY hS hW hH
  exact MV.chaseY_blocked e dy bs h hc

/-- C9 counterexample enemy: a village enemy (speed 1, aggro radius 150) at
(100,100). -/
def MV.c9Enemy : Character := { x := 100, y := 100, speed := 1 }

/-- C9 counterexample: the player stands at (103,103) — straight-line distance
about 4.24, well below the aggro radius 150 — yet the enemy does not move on
either axis (both separations are inside the `abs(d) > 5` dead zone); it only
sets its chasing flag.  This refutes the claim that at any distance below R
the enemy moves one step closer on at least one axis. -/
theorem c9_counterexample :
    ((103 : Int) - MV.c9Enemy.x) * (103 - MV.c9Enemy.x) +
        ((103 : Int) - MV.c9Enemy.y) * (103 - MV.c9Enemy.y) <
      MV.c9Enemy.aggro_range * MV.c9Enemy.aggro_range ∧
    (MV.enemyUpdate MV.c9Enemy 103 103 []).chasing = true ∧
    (MV.enemyUpdate MV.c9Enemy 103 103 []).x = MV.c9Enemy.x ∧
    (MV.enemyUpdate MV.c9Enemy 103 103 []).y = MV.c9Enemy.y := by decide

/-- C9 (amended): aggro-chase behavior of the village enemy update.  With
squared straight-line distance compared against the squared aggro radius:
out of range the enemy clears chasing and walking and does not move; in range
it sets chasing, and it steps `speed` closer to the player independently on
each axis whose separation exceeds the 5-pixel dead zone and whose stepped
rectangle overlaps no building — so it can stand still in range when both
separations are ≤ 5 or both steps are blocked; an axis inside the dead zone or
blocked does not move; with the actual enemy speed 1 an accepted step closes
that axis distance by exactly one; an accepted step never overlaps a building;
and facing turns toward the player on each accepted axis step (the y step,
which runs second, wins when both step). -/
theorem c9_aggro_chase :
    ∀ (e : Character) (px py : Int) (bs : List Building),
      (¬ ((px - e.x) * (px - e.x) + (py - e.y) * (py - e.y) <
            e.aggro_range * e.aggro_range) →
         MV.enemyUpdate e px py bs = { e with chasing := false, walking := false }) ∧
      ((px - e.x) * (px - e.x) + (py - e.y) * (py - e.y) <
          e.aggro_range * e.aggro_range →
        (MV.enemyUpdate e px py bs).chasing = true ∧
        (¬ |px - e.x| > 5 → (MV.enemyUpdate e px py bs).x = e.x) ∧
        (¬ |py - e.y| > 5 → (MV.enemyUpdate e px py bs).y = e.y) ∧
        (|px - e.x| > 5 →
          collidesAny ⟨e.x + (if px - e.x > 0 then e.speed else -e.speed), e.y,
              e.width, e.height⟩ bs = false →
          (MV.enemyUpdate e px py bs).x =
              e.x + (if px - e.x > 0 then e.speed else -e.speed) ∧
          (MV.enemyUpdate e px py bs).walking = true) ∧
        (|py - e.y| > 5 →
          collidesAny ⟨(MV.enemyUpdate e px py bs).x,
              e.y + (if py - e.y > 0 then e.speed else -e.speed),
              e.width, e.height⟩ bs = false →
          (MV.enemyUpdate e px py bs).y =
              e.y + (if py - e.y > 0 then e.speed else -e.speed) ∧
          (MV.enemyUpdate e px py bs).walking = true ∧
          (MV.enemyUpdate e px py bs).direction = (if py - e.y > 0 then 0 else 2)) ∧
        (e.speed = 1 → |px - e.x| > 5 →
          collidesAny ⟨e.x + (if px - e.x > 0 then e.speed else -e.speed), e.y,
              e.width, e.height⟩ bs = false →
          |px - (MV.enemyUpdate e px py bs).x| = |px - e.x| - 1) ∧
        (e.speed = 1 → (MV.enemyUpdate e px py bs).y ≠ e.y →
          |py - (MV.enemyUpdate e px py bs).y| = |py - e.y| - 1) ∧
        ((MV.enemyUpdate e px py bs).x ≠ e.x →
          collidesAny ⟨(MV.enemyUpdate e px py bs).x, e.y, e.width, e.height⟩ bs = false) ∧
        ((MV.enemyUpdate e px py bs).y ≠ e.y →
          collidesAny ⟨(MV.enemyUpdate e px py bs).x, (MV.enemyUpdate e px py bs).y,
              e.width, e.height⟩ bs = false) ∧
        (|px - e.x| > 5 →
          collidesAny ⟨e.x + (if px - e.x > 0 then e.speed else -e.speed), e.y,
              e.width, e.height⟩ bs = false →
          (¬ |py - e.y| > 5 ∨
            collidesAny ⟨e.x + (if px - e.x > 0 then e.speed else -e.speed),
                e.y + (if py - e.y > 0 then e.speed else -e.speed),
                e.width, e.height⟩ bs = true) →
          (MV.enemyUpdate e px py bs).direction = (if px - e.x > 0 then 1 else 3))) := by
  intro e px py bs
  constructor
  · intro hfar
    exact MV.enemyUpdate_far e px py bs hfar
  · intro hnear
    rw [MV.enemyUpdate_near e px py bs hnear]
    dsimp only
    set a := MV.chaseX { e with chasing := true } (px - e.x) bs with hA
    set b := MV.chaseY a (py - e.y) bs with hB
    have hay : a.y = e.y := (MV.chaseX_proj { e with chasing := true } (px - e.x) bs).1
    have has : a.speed = e.speed :=
      (MV.chaseX_proj { e with chasing := true } (px - e.x) bs).2.1
    have haw : a.width = e.width :=
      (MV.chaseX_proj { e with chasing := true } (px - e.x) bs).2.2.1
    have hah : a.height = e.height :=
      (MV.chaseX_proj { e with chasing := true } (px - e.x) bs).2.2.2.1
    have hac : a.chasing = true :=
      (MV.chaseX_proj { e with chasing := true } (px - e.x) bs).2.2.2.2.1
    have hbx : b.x = a.x := (MV.chaseY_proj a (py - e.y) bs).1
    have hbc : b.chasing = a.chasing := (MV.chaseY_proj a (py - e.y) bs).2.2.2.2.1
    refine ⟨?_, ?_, ?_, ?_, ?_, ?_, ?_, ?_, ?_, ?_⟩
    · rw [hbc, hac]
    · intro h5
      have hae : a = { e with chasing := true } := MV.chaseX_dead_zone _ _ _ h5
      rw [hbx, hae]
    · intro h5
      have hbe : b = a := MV.chaseY_dead_zone a (py - e.y) bs h5
      rw [hbe, hay]
    · intro h5 hc
      have hax : a =
          { e with chasing := true,
                   x := e.x + (if px - e.x > 0 then e.speed else -e.speed),
                   direction := if px - e.x > 0 then 1 else 3, walking := true } :=
        MV.chaseX_step { e with chasing := true } (px - e.x) bs h5 hc
      refine ⟨by rw [hbx, hax], ?_⟩
      exact MV.chaseY_walking_mono a (py - e.y) bs (by rw [hax])
    · intro h5 hc
      rw [hbx] at hc
      have hby : b =
          { a with y := e.y + (if py - e.y > 0 then e.speed else -e.speed),
                   direction := if py - e.y > 0 then 0 else 2, walking := true } :=
        MV.chaseY_step_ext a (py - e.y) bs e.y e.speed e.width e.height
          hay has haw hah h5 hc
      exact ⟨by rw [hby], by rw [hby], by rw [hby]⟩
    · intro hs1 h5 hc
      have hax : a =
          { e with chasing := true,
                   x := e.x + (if px - e.x > 0 then e.speed else -e.speed),
                   direction := if px - e.x > 0 then 1 else 3, walking := true } :=
        MV.chaseX_step { e with chasing := true } (px - e.x) bs h5 hc
      have hxv : b.x = e.x + (if px - e.x > 0 then e.speed else -e.speed) := by
        rw [hbx, hax]
      rw [hxv, hs1]
      have harith : px - (e.x + (if px - e.x > 0 then (1 : Int) else -1)) =
          (px - e.x) - (if px - e.x > 0 then 1 else -1) := by ring
      rw [harith, abs_step_closer (px - e.x) h5]
    · intro hs1 hneq
      by_cases h5 : |py - e.y| > 5
      · by_cases hcy : collidesAny ⟨a.x, e.y + (if py - e.y > 0 then e.speed else -e.speed),
            e.width, e.height⟩ bs = true
        · have hbe : b = a :=
            MV.chaseY_blocked_ext a (py - e.y) bs e.y e.speed e.width e.height
              hay has haw hah h5 hcy
          exact absurd (by rw [hbe, hay]) hneq
        · have hcy2 : collidesAny ⟨a.x, e.y + (if py - e.y > 0 then e.speed else -e.speed),
              e.width, e.height⟩ bs = false := by
            revert hcy
            cases collidesAny ⟨a.x, e.y + (if py - e.y > 0 then e.speed else -e.speed),
              e.width, e.height⟩ bs <;> simp
          have hby : b =
              { a with y := e.y + (if py - e.y > 0 then e.speed else -e.speed),
                       direction := if py - e.y > 0 then 0 else 2, walking := true } :=
            MV.chaseY_step_ext a (py - e.y) bs e.y e.speed e.width e.height
              hay has haw hah h5 hcy2
          have hyv : b.y = e.y + (if py - e.y > 0 then e.speed else -e.speed) := by
            rw [hby]
          rw [hyv, hs1]
          have harith : py - (e.y + (if py - e.y > 0 then (1 : Int) else -1)) =
              (py - e.y) - (if py - e.y > 0 then 1 else -1) := by ring
          rw [harith, abs_step_closer (py - e.y) h5]
      · have hbe : b = a := MV.chaseY_dead_zone a (py - e.y) bs h5
        exact absurd (by rw [hbe, hay]) hneq
    · intro hneq
      by_cases h5 : |px - e.x| > 5
      · by_cases hcx : collidesAny ⟨e.x + (if px - e.x > 0 then e.speed else -e.speed),
            e.y, e.width, e.height⟩ bs = true
        · have hae : a = { e with chasing := true } :=
            MV.chaseX_blocked { e with chasing := true } (px - e.x) bs h5 hcx
          exact absurd (by rw [hbx, hae]) hneq
        · have hcx2 : collidesAny ⟨e.x + (if px - e.x > 0 then e.speed else -e.speed),
              e.y, e.width, e.height⟩ bs = false := by
            revert hcx
            cases collidesAny ⟨e.x + (if px - e.x > 0 then e.speed else -e.speed),
              e.y, e.width, e.height⟩ bs <;> simp
          have hax : a =
              { e with chasing := true,
                       x := e.x + (if px - e.x > 0 then e.speed else -e.speed),
                       direction := if px - e.x > 0 then 1 else 3, walking := true } :=
            MV.chaseX_step { e with chasing := true } (px - e.x) bs h5 hcx2
          have hxv : b.x = e.x + (if px - e.x > 0 then e.speed else -e.speed) := by
            rw [hbx, hax]
          rw [hxv]
          exact hcx2
      · have hae : a = { e with chasing := true } := MV.chaseX_dead_zone _ _ _ h5
        exact absurd (by rw [hbx, hae]) hneq
    · intro hneq
      by_cases h5 : |py - e.y| > 5
      · by_cases hcy : collidesAny ⟨a.x, e.y + (if py - e.y > 0 then e.speed else -e.speed),
            e.width, e.height⟩ bs = true
        · have hbe : b = a :=
            MV.chaseY_blocked_ext a (py - e.y) bs e.y e.speed e.width e.height
              hay has haw hah h5 hcy
          exact absurd (by rw [hbe, hay]) hneq
        · have hcy2 : collidesAny ⟨a.x, e.y + (if py - e.y > 0 then e.speed else -e.speed),
              e.width, e.height⟩ bs = false := by
            revert hcy
            cases collidesAny ⟨a.x, e.y + (if py - e.y > 0 then e.speed else -e.speed),
              e.width, e.height⟩ bs <;> simp
          have hby : b =
              { a with y := e.y + (if py - e.y > 0 then e.speed else -e.speed),
                       direction := if py - e.y > 0 then 0 else 2, walking := true } :=
            MV.chaseY_step_ext a (py - e.y) bs e.y e.speed e.width e.height
              hay has haw hah h5 hcy2
          have hyv : b.y = e.y + (if py - e.y > 0 then e.speed else -e.speed) := by
            rw [hby]
          rw [hyv, hbx]
          exact hcy2
      · have hbe : b = a := MV.chaseY_dead_zone a (py - e.y) bs h5
        exact absurd (by rw [hbe, hay]) hneq
    · intro h5 hcx hdisj
      have hax : a =
          { e with chasing := true,
                   x := e.x + (if px - e.x > 0 then e.speed else -e.speed),
                   direction := if px - e.x > 0 then 1 else 3, walking := true } :=
        MV.chaseX_step { e with chasing := true } (px - e.x) bs h5 hcx
      rcases hdisj with h5y | hcytrue
      · have hbe : b = a := MV.chaseY_dead_zone a (py - e.y) bs h5y
        rw [hbe, hax]
      · by_cases h5y : |py - e.y| > 5
        · have hxx : a.x = e.x + (if px - e.x > 0 then e.speed else -e.speed) := by
            rw [hax]
          rw [← hxx] at hcytrue
          have hbe : b = a :=
            MV.chaseY_blocked_ext a (py - e.y) bs e.y e.speed e.width e.height
              hay has haw hah h5y hcytrue
          rw [hbe, hax]
        · have hbe : b = a := MV.chaseY_dead_zone a (py - e.y) bs h5y
          rw [hbe, hax]

/-- C9 witness enemy: at (100,100), 20 pixels west of the player. -/
def MV.c9Chaser : Character := { x := 100, y := 100, speed := 1 }

/-- C9 witness: with the player at (120,100) — in range, horizontal separation
20 > 5, no buildings — the enemy steps one pixel east and walks. -/
theorem c9_aggro_chase_witness :
    (MV.enemyUpdate MV.c9Chaser 120 100 []).x =
      MV.c9Chaser.x +
        (if (120 : Int) - MV.c9Chaser.x > 0 then MV.c9Chaser.speed else -MV.c9Chaser.speed) ∧
    (MV.enemyUpdate MV.c9Chaser 120 100 []).walking = true :=
  ((c9_aggro_chase MV.c9Chaser 120 100 []).2 (by decide)).2.2.2.1 (by decide) (by decide)

end LumbyVibes
